import Mathlib

/-
Verification of the CouponScorpion scraper
(src/udemy_enroller/scrapers/couponscorpion.py).

The scraper is embedded shallowly: the HTML documents are modelled by the
structure the parser queries (articles with a class attribute and nested
anchors, button-wrapper spans with nested anchors, a pagination list of
anchors), the external collaborators (HTTP fetcher, browser session,
URL validator) are modelled by an oracle `World` whose fallible calls
return `Except`, and the mutable scraper object is modelled by explicit
state passing over `ScraperState`.  Python string primitives used by the
pagination parser (`str.strip`, `str.isdigit`, `int`) are modelled over
the character list of the string.
-/

namespace CouponScorpion

/-- Python `str.strip` whitespace test for a single character. -/
def py_isspace (c : Char) : Bool :=
  c = ' ' || c = '\t' || c = '\n' || c = '\r' || c = '\x0b' || c = '\x0c'

/-- Python `str.strip`: drop leading and trailing whitespace. -/
def py_strip (s : String) : String :=
  String.mk (((s.data.dropWhile py_isspace).reverse.dropWhile py_isspace).reverse)

/-- Python `str.isdigit` (restricted to ASCII digits, which is what the
pagination anchors contain): true on a nonempty all-digit string. -/
def py_isdigit (s : String) : Bool :=
  !s.data.isEmpty && s.data.all Char.isDigit

/-- Python `int` on an all-digit string. -/
def py_int (s : String) : Nat :=
  s.data.foldl (fun n c => n * 10 + (c.toNat - 48)) 0

/-- An `<a>` element: `href` is `some` when the anchor carries an href
attribute (BeautifulSoup `find("a", href=True)` only matches those), and
`text` is the text content used by the pagination parser. -/
structure Anchor where
  href : Option String
  text : String
deriving DecidableEq

/-- An `<article>` element of the listing page: its full class attribute
string and the anchors nested inside it, in document order. -/
structure Article where
  classAttr : String
  anchors : List Anchor
deriving DecidableEq

/-- The `<ul class="page-numbers">` pagination control: its anchors in
document order. -/
structure Pagination where
  anchors : List Anchor
deriving DecidableEq

/-- A listing page as seen by `_get_post_links`: the article elements in
document order and the pagination control, when one exists. -/
structure ListingHtml where
  articles : List Article
  pagination : Option Pagination
deriving DecidableEq

/-- A `<span>` element of a post page: its class list (BeautifulSoup
matches `class_="rh_button_wrapper"` against the multi-valued class
attribute) and the anchors nested inside it, in document order. -/
structure Span where
  classes : List String
  anchors : List Anchor
deriving DecidableEq

/-- A post page as seen by `_get_coupon_redirect_links`: its span elements
in document order. -/
structure PostHtml where
  spans : List Span
deriving DecidableEq

/-- The regex marker `^col_item offer_grid` of line 113. -/
def ARTICLE_CLASS_MARKER : String := "col_item offer_grid"

/-- `soup.find_all("article", class_=re.compile(r"^col_item offer_grid"))`
keeps an article exactly when its class attribute starts with the marker. -/
def article_qualifies (a : Article) : Bool :=
  ARTICLE_CLASS_MARKER.data.isPrefixOf a.classAttr.data

/-- `find_all("span", class_="rh_button_wrapper")` keeps a span exactly
when its class list contains the marker (line 166). -/
def span_qualifies (sp : Span) : Bool :=
  sp.classes.contains "rh_button_wrapper"

/-- `element.find("a", href=True)`: the href of the first nested anchor
that carries an href attribute, if any. -/
def find_first_href : List Anchor → Option String
  | [] => none
  | a :: rest =>
    match a.href with
    | some h => some h
    | none => find_first_href rest

/-- Lines 113-119: for each qualifying article, append the href of its
first href-bearing anchor, skipping articles without one. -/
def extract_post_links (articles : List Article) : List String :=
  (articles.filter article_qualifies).filterMap fun a => find_first_href a.anchors

/-- Lines 166-174: for each button-wrapper span, append the href of its
first href-bearing anchor, skipping spans without one. -/
def extract_redirect_links (spans : List Span) : List String :=
  (spans.filter span_qualifies).filterMap fun sp => find_first_href sp.anchors

/-- Lines 125-130: the values of the pagination anchors whose stripped
text is purely numeric, in document order. -/
def numeric_page_numbers (anchors : List Anchor) : List Nat :=
  anchors.filterMap fun link =>
    let text := py_strip link.text
    if py_isdigit text then some (py_int text) else none

/-- Lines 122-137, the value stored into `self.last_page` on the first
successful parse: the maximum numeric pagination anchor; the current page
when the control has no numeric anchors; `1` when there is no pagination
control at all. -/
def compute_last_page (current_page : Nat) (pagination : Option Pagination) : Nat :=
  match pagination with
  | some ul =>
    match numeric_page_numbers ul.anchors with
    | [] => current_page
    | n :: rest => rest.foldl Nat.max n
  | none => 1

/-- The lifecycle states of spec section 4.4: `disabled` and `completed`
are terminal. -/
inductive ScraperPhase
  | active
  | disabled
  | completed
deriving DecidableEq

/-- The mutable scraper object: the base-scraper fields (name, lifecycle
state, browser-session handle, page counter) together with the fields set
by `CouponScorpionScraper.__init__` (`max_pages`, `last_page`).  The
browser session carries no data the scraper reads other than through the
`navigate` oracle, so the handle is `Option Unit`. -/
structure ScraperState where
  scraper_name : String
  state : ScraperPhase
  driver : Option Unit
  current_page : Nat
  max_pages : Option Nat
  last_page : Option Nat
deriving DecidableEq

/-- The external collaborators of one `run()` call.  `listing` and `post`
are the two `requests.get` fetches (already parsed into the page models;
`Except.error` is a raised exception: timeout, non-2xx via
`raise_for_status`, connection failure).  `navigate` is
`driver.get(url); sleep(2); driver.current_url` (the address reached, or a
raised navigation exception).  `validate` is the external
`validate_coupon_url` collaborator of the shared base scraper, absent from
src: `some` is the normalized URL it returns, `none` a rejection.
`initOk` is whether a browser session can be created when the base
scraper tries to. -/
structure World where
  initOk : Bool
  listing : String → Except String ListingHtml
  post : String → Except String PostHtml
  navigate : String → Except String String
  validate : String → Option String

/-- Modelled from the spec: the shared base-scraper constructor, absent
from src, which starts a scraper in the active state with page counter 0
and no browser session (spec sections 3 and 4.4). -/
def base_init : ScraperState :=
  { scraper_name := ""
    state := ScraperPhase.active
    driver := none
    current_page := 0
    max_pages := none
    last_page := none }

/-- Modelled from the spec: the base-scraper transition into the terminal
disabled state (spec section 4.4). -/
def set_state_disabled (s : ScraperState) : ScraperState :=
  { s with state := ScraperPhase.disabled }

/-- Modelled from the spec: the base-scraper query for the completed
terminal state. -/
def is_complete (s : ScraperState) : Bool :=
  s.state == ScraperPhase.completed

/-- Modelled from the spec: the base-scraper query for the disabled
terminal state. -/
def is_disabled (s : ScraperState) : Bool :=
  s.state == ScraperPhase.disabled

/-- Modelled from the spec: the base-scraper lazy browser-session
initialization, absent from src.  It creates a session only when none is
active and the scraper is not disabled (spec section 4.4), and may fail
to produce one (the `initOk` flag of the world), in which case the handle
stays absent and no exception is raised (spec section 4.4 treats a failed
initialization as the no-session case, not as a raise). -/
def init_driver (w : World) (s : ScraperState) : ScraperState :=
  if s.driver.isNone && !is_disabled s && w.initOk then
    { s with driver := some () }
  else s

/-- Modelled from the spec: the base-scraper teardown releasing the
browser session (spec section 4.4). -/
def close_driver (s : ScraperState) : ScraperState :=
  { s with driver := none }

/-- Whether an optional page bound has been reached by the counter. -/
def bound_hit (bound : Option Nat) (page : Nat) : Bool :=
  match bound with
  | some m => decide (m ≤ page)
  | none => false

/-- Modelled from the spec: the base-scraper `max_pages_reached` check,
absent from src, which moves an active scraper into the terminal
completed state once the configured max-pages ceiling or the discovered
last-page bound has been reached (spec section 4.4); `disabled` is
terminal, so a disabled scraper never leaves it. -/
def max_pages_reached (s : ScraperState) : ScraperState :=
  if is_disabled s || is_complete s then s
  else if bound_hit s.max_pages s.current_page || bound_hit s.last_page s.current_page then
    { s with state := ScraperPhase.completed }
  else s

/-- `CouponScorpionScraper.__init__` (lines 24-31): base init, name,
optional disable, `max_pages`, `last_page = None`. -/
def couponscorpion_init (enabled : Bool) (max_pages : Option Nat) : ScraperState :=
  let s0 := base_init
  let s1 := { s0 with scraper_name := "couponscorpion" }
  let s2 := if !enabled then set_state_disabled s1 else s1
  let s3 := { s2 with max_pages := max_pages }
  { s3 with last_page := none }

def DOMAIN : String := "https://couponscorpion.com"

/-- `_get_post_links` (lines 92-143): fetch and parse the listing page;
on success return the post links and memoize `last_page` when it is still
unset; any raised exception is caught and turned into the empty list,
leaving the state untouched. -/
def get_post_links (w : World) (s : ScraperState) (page_url : String) :
    List String × ScraperState :=
  match w.listing page_url with
  | Except.error _ => ([], s)
  | Except.ok soup =>
    let post_links := extract_post_links soup.articles
    let s1 :=
      if s.last_page.isNone then
        { s with last_page := some (compute_last_page s.current_page soup.pagination) }
      else s
    (post_links, s1)

/-- `_get_coupon_redirect_links` (lines 145-178): fetch and parse a post
page; any raised exception is caught and turned into the empty list. -/
def get_coupon_redirect_links (w : World) (post_url : String) : List String :=
  match w.post post_url with
  | Except.error _ => []
  | Except.ok soup => extract_redirect_links soup.spans

/-- `_resolve_redirect` (lines 180-205): with no driver return `None` at
once; otherwise navigate and validate, where a navigation exception is
caught and, like a falsy validation result, falls through to `None`.
The `isEmpty` test is the Python truthiness of `if validated:`. -/
def resolve_redirect (w : World) (s : ScraperState) (url : String) : Option String :=
  if s.driver.isNone then none
  else
    match w.navigate url with
    | Except.error _ => none
    | Except.ok final_url =>
      match w.validate final_url with
      | some validated => if validated.isEmpty then none else some validated
      | none => none

/-- `gather_udemy_course_links` (lines 207-226): for each post link take
its redirect links, resolve each, and keep the truthy results in order. -/
def gather_udemy_course_links (w : World) (s : ScraperState)
    (post_links : List String) : List String :=
  post_links.flatMap fun post_url =>
    (get_coupon_redirect_links w post_url).filterMap fun redirect_url =>
      match resolve_redirect w s redirect_url with
      | some final_url => if final_url.isEmpty then none else some final_url
      | none => none

/-- `get_links` (lines 52-90): increment the page counter, lazily
initialize the driver, bail out with the empty list when there is no
driver, build the page URL, and run the page scrape inside the
try/except of lines 73-90 whose handler returns the empty list.  The try
body only calls functions that already catch their own failures, so the
handler branch is unreachable, exactly as in the source where the inner
calls never raise. -/
def get_links (w : World) (s : ScraperState) : List String × ScraperState :=
  let s1 := { s with current_page := s.current_page + 1 }
  let s2 := init_driver w s1
  if s2.driver.isNone then ([], s2)
  else
    let page_url :=
      if s2.current_page = 1 then DOMAIN
      else DOMAIN ++ "/page/" ++ toString s2.current_page
    let attempt : Except String (List String × ScraperState) :=
      let (post_links, s3) := get_post_links w s2 page_url
      let udemy_links := gather_udemy_course_links w s3 post_links
      Except.ok (udemy_links, s3)
    match attempt with
    | Except.ok r => r
    | Except.error _ => ([], s2)

/-- The finally clause of `run` (lines 47-50): release the driver when
the scraper has reached a terminal state. -/
def run_cleanup (s : ScraperState) : ScraperState :=
  if is_complete s || is_disabled s then close_driver s else s

/-- `run` (lines 33-50): the try body gathers the links and evaluates
`max_pages_reached`; the finally clause releases the driver when the
scraper has reached a terminal state.  `run` has no except clause, so an
exception raised by its body would propagate to the caller as an
`Except.error`; the `time_run` decorator of the base scraper only
measures time and is not modelled. -/
def run (w : World) (s : ScraperState) : Except String (List String × ScraperState) :=
  let (links, s1) := get_links w s
  let s2 := max_pages_reached s1
  Except.ok (links, run_cleanup s2)

/-- The state after one `run()` call (its links discarded); on the
impossible error branch the input state is kept. -/
def run_state (w : World) (s : ScraperState) : ScraperState :=
  match run w s with
  | Except.ok r => r.2
  | Except.error _ => s

/-- The state after a sequence of `run()` calls, one world per call. -/
def run_trace : List World → ScraperState → ScraperState
  | [], s => s
  | w :: ws, s => run_trace ws (run_state w s)

/-! Helper lemmas about the state transitions. -/

theorem run_state_eq (w : World) (s : ScraperState) :
    run_state w s = run_cleanup (max_pages_reached (get_links w s).2) := rfl

theorem get_post_links_error (w : World) (s : ScraperState) (url e : String)
    (h : w.listing url = Except.error e) : get_post_links w s url = ([], s) := by
  simp [get_post_links, h]

theorem get_post_links_current_page (w : World) (s : ScraperState) (url : String) :
    ((get_post_links w s url).2).current_page = s.current_page := by
  unfold get_post_links
  cases w.listing url with
  | error e => simp
  | ok soup => by_cases h : s.last_page.isNone <;> simp [h]

theorem get_post_links_state (w : World) (s : ScraperState) (url : String) :
    ((get_post_links w s url).2).state = s.state := by
  unfold get_post_links
  cases w.listing url with
  | error e => simp
  | ok soup => by_cases h : s.last_page.isNone <;> simp [h]

theorem get_post_links_driver (w : World) (s : ScraperState) (url : String) :
    ((get_post_links w s url).2).driver = s.driver := by
  unfold get_post_links
  cases w.listing url with
  | error e => simp
  | ok soup => by_cases h : s.last_page.isNone <;> simp [h]

theorem get_post_links_last_page_some (w : World) (s : ScraperState) (url : String)
    (v : Nat) (h : s.last_page = some v) : (get_post_links w s url).2 = s := by
  unfold get_post_links
  cases w.listing url with
  | error e => rfl
  | ok soup => simp [h]

theorem get_post_links_sets_last_page (w : World) (s : ScraperState) (url : String)
    (soup : ListingHtml) (hnone : s.last_page = none)
    (hok : w.listing url = Except.ok soup) :
    ((get_post_links w s url).2).last_page =
      some (compute_last_page s.current_page soup.pagination) := by
  simp [get_post_links, hok, hnone]

theorem init_driver_current_page (w : World) (s : ScraperState) :
    (init_driver w s).current_page = s.current_page := by
  unfold init_driver
  split <;> simp

theorem init_driver_state (w : World) (s : ScraperState) :
    (init_driver w s).state = s.state := by
  unfold init_driver
  split <;> simp

theorem init_driver_last_page (w : World) (s : ScraperState) :
    (init_driver w s).last_page = s.last_page := by
  unfold init_driver
  split <;> simp

theorem get_links_current_page (w : World) (s : ScraperState) :
    ((get_links w s).2).current_page = s.current_page + 1 := by
  simp only [get_links]
  split
  · simp [init_driver_current_page]
  · simp [get_post_links_current_page, init_driver_current_page]

theorem get_links_state (w : World) (s : ScraperState) :
    ((get_links w s).2).state = s.state := by
  simp only [get_links]
  split
  · simp [init_driver_state]
  · simp [get_post_links_state, init_driver_state]

theorem get_links_last_page_some (w : World) (s : ScraperState) (v : Nat)
    (h : s.last_page = some v) : ((get_links w s).2).last_page = some v := by
  simp only [get_links]
  split
  · simp [init_driver_last_page, h]
  · rw [get_post_links_last_page_some _ _ _ v (by simp [init_driver_last_page, h])]
    simp [init_driver_last_page, h]

theorem max_pages_reached_fields (s : ScraperState) :
    ((max_pages_reached s).current_page = s.current_page) ∧
    ((max_pages_reached s).last_page = s.last_page) ∧
    ((max_pages_reached s).driver = s.driver) := by
  unfold max_pages_reached
  split
  · simp
  · split <;> simp

theorem max_pages_reached_disabled (s : ScraperState)
    (h : s.state = ScraperPhase.disabled) : max_pages_reached s = s := by
  unfold max_pages_reached is_disabled
  simp [h]

theorem run_cleanup_fields (s : ScraperState) :
    ((run_cleanup s).current_page = s.current_page) ∧
    ((run_cleanup s).last_page = s.last_page) ∧
    ((run_cleanup s).state = s.state) := by
  unfold run_cleanup close_driver
  split <;> simp

theorem run_state_disabled (w : World) (s : ScraperState)
    (hst : s.state = ScraperPhase.disabled) :
    (run_state w s).state = ScraperPhase.disabled ∧ (run_state w s).driver = none := by
  have h1 : (get_links w s).2.state = ScraperPhase.disabled :=
    (get_links_state w s).trans hst
  rw [run_state_eq, max_pages_reached_disabled _ h1]
  unfold run_cleanup is_disabled is_complete close_driver
  simp [h1]

theorem run_trace_disabled (ws : List World) (s : ScraperState)
    (hst : s.state = ScraperPhase.disabled) :
    (run_trace ws s).state = ScraperPhase.disabled ∧
    (s.driver = none → (run_trace ws s).driver = none) := by
  induction ws generalizing s with
  | nil => exact ⟨hst, fun h => h⟩
  | cons w ws ih =>
    have h := run_state_disabled w s hst
    have h2 := ih (run_state w s) h.1
    exact ⟨h2.1, fun _ => h2.2 h.2⟩

/-! Concrete pages, worlds and scraper states used by the witnesses and
counterexamples. -/

/-- A pagination anchor with the given text and no href. -/
def anch (t : String) : Anchor :=
  { href := none, text := t }

/-- Pagination anchors with texts 1, 2, 3 and a right-guillemet. -/
def pag1239 : Pagination :=
  { anchors := [anch "1", anch "2", anch "3", anch "»"] }

/-- A world in which every external call raises. -/
def errWorld : World :=
  { initOk := true
    listing := fun _ => Except.error "boom"
    post := fun _ => Except.error "boom"
    navigate := fun _ => Except.error "boom"
    validate := fun _ => none }

/-- A world whose listing page has no articles and no pagination control. -/
def emptyListingWorld : World :=
  { initOk := true
    listing := fun _ => Except.ok { articles := [], pagination := none }
    post := fun _ => Except.error "boom"
    navigate := fun _ => Except.error "boom"
    validate := fun _ => none }

/-- A world whose listing page has a pagination control containing only a
non-numeric anchor. -/
def raquoPagWorld : World :=
  { initOk := true
    listing := fun _ => Except.ok { articles := [], pagination := some { anchors := [anch "»"] } }
    post := fun _ => Except.error "boom"
    navigate := fun _ => Except.error "boom"
    validate := fun _ => none }

/-- An active scraper on page 2 with a driver and no memoized last page,
as `_get_post_links` sees it when the first listing fetch failed. -/
def page2state : ScraperState :=
  { scraper_name := "couponscorpion"
    state := ScraperPhase.active
    driver := some ()
    current_page := 2
    max_pages := none
    last_page := none }

/-- An active scraper whose last page is already memoized as 5. -/
def lastPage5State : ScraperState :=
  { scraper_name := "couponscorpion"
    state := ScraperPhase.active
    driver := none
    current_page := 3
    max_pages := none
    last_page := some 5 }

/-- An active scraper holding a driver. -/
def driverState : ScraperState :=
  { scraper_name := "couponscorpion"
    state := ScraperPhase.active
    driver := some ()
    current_page := 1
    max_pages := none
    last_page := some 3 }

/-- A button-wrapper span containing two href-bearing anchors. -/
def twoAnchorSpan : Span :=
  { classes := ["rh_button_wrapper"]
    anchors := [{ href := some "u1", text := "Get Coupon" },
                { href := some "u2", text := "Mirror" }] }

/-- A span that is not a button wrapper. -/
def otherSpan : Span :=
  { classes := ["price_wrapper"], anchors := [{ href := some "x", text := "" }] }

/-- A qualifying article containing no anchor at all. -/
def artNoAnchor : Article :=
  { classAttr := "col_item offer_grid one_column", anchors := [] }

/-- A qualifying article containing one href-bearing anchor. -/
def artWithAnchor : Article :=
  { classAttr := "col_item offer_grid one_column"
    anchors := [{ href := some "p1", text := "" }] }

/-- A world for redirect resolution: post page p holds one button-wrapper
anchor to a; navigating a reaches fa which the validator normalizes to
va; navigating b raises; navigating c reaches fc which the validator
rejects. -/
def resolveWorld : World :=
  { initOk := true
    listing := fun _ => Except.ok { articles := [], pagination := none }
    post := fun _ =>
      Except.ok { spans := [{ classes := ["rh_button_wrapper"]
                              anchors := [{ href := some "a", text := "" }] }] }
    navigate := fun u =>
      if u = "a" then Except.ok "fa"
      else if u = "c" then Except.ok "fc"
      else Except.error "nav"
    validate := fun f => if f = "fa" then some "va" else none }

/-! The claims. -/

/-- C1: no exception propagates out of `run()`: for every behavior of the
external collaborators, including ones whose fetches, navigations and
driver initializations fail, `run` returns `Except.ok`, every failed
listing fetch yields the empty post-link list, every failed post fetch
yields the empty redirect list, and every failed navigation yields
`none` for that single redirect. -/
theorem run_no_exception :
    (∀ w s, ∃ r, run w s = Except.ok r) ∧
    (∀ w s url e, w.listing url = Except.error e → get_post_links w s url = ([], s)) ∧
    (∀ w url e, w.post url = Except.error e → get_coupon_redirect_links w url = []) ∧
    (∀ w s url e, w.navigate url = Except.error e → resolve_redirect w s url = none) := by
  refine ⟨fun w s => ⟨_, rfl⟩, fun w s url e h => get_post_links_error w s url e h,
    fun w url e h => ?_, fun w s url e h => ?_⟩
  · simp [get_coupon_redirect_links, h]
  · unfold resolve_redirect
    split
    · rfl
    · simp [h]

/-- Witness for C1 at the world whose external calls all fail. -/
theorem run_no_exception_witness :
    (∃ r, run errWorld (couponscorpion_init true none) = Except.ok r) ∧
    get_post_links errWorld (couponscorpion_init true none) "x" =
      ([], couponscorpion_init true none) ∧
    get_coupon_redirect_links errWorld "x" = [] ∧
    resolve_redirect errWorld (couponscorpion_init true none) "x" = none :=
  ⟨run_no_exception.1 errWorld (couponscorpion_init true none),
   run_no_exception.2.1 errWorld (couponscorpion_init true none) "x" "boom" rfl,
   run_no_exception.2.2.1 errWorld "x" "boom" rfl,
   run_no_exception.2.2.2 errWorld (couponscorpion_init true none) "x" "boom" rfl⟩

/-- C2 counterexample: a scraper whose first listing fetch fails and whose
second listing page parses successfully with no pagination control
performs its first successful parse on page 2, yet `last_page` becomes 1,
not the current page number 2. -/
theorem last_page_no_pagination_cex :
    (run_trace [errWorld, emptyListingWorld] (couponscorpion_init true none)).current_page = 2 ∧
    (run_trace [errWorld, emptyListingWorld] (couponscorpion_init true none)).last_page = some 1 ∧
    (run_trace [errWorld, emptyListingWorld] (couponscorpion_init true none)).last_page ≠
      some (run_trace [errWorld, emptyListingWorld] (couponscorpion_init true none)).current_page := by
  decide

/-- C2 amended: on the first successful listing-page parse, `last_page`
is set to 1 when the page contains no pagination control, and to the
current page number when a pagination control exists but contains no
purely numeric anchor text. -/
theorem last_page_no_pagination_amended (w : World) (s : ScraperState) (url : String)
    (soup : ListingHtml) (hnone : s.last_page = none)
    (hok : w.listing url = Except.ok soup) :
    (soup.pagination = none → ((get_post_links w s url).2).last_page = some 1) ∧
    (∀ ul, soup.pagination = some ul → numeric_page_numbers ul.anchors = [] →
      ((get_post_links w s url).2).last_page = some s.current_page) := by
  constructor
  · intro hpag
    rw [get_post_links_sets_last_page w s url soup hnone hok, hpag]
    rfl
  · intro ul hpag hnums
    rw [get_post_links_sets_last_page w s url soup hnone hok, hpag]
    simp [compute_last_page, hnums]

/-- Witness for C2 amended on page 2: a page with no pagination yields
last page 1, a page whose only pagination anchor is non-numeric yields
last page 2 = the current page. -/
theorem last_page_no_pagination_amended_witness :
    ((get_post_links emptyListingWorld page2state "u").2).last_page = some 1 ∧
    ((get_post_links raquoPagWorld page2state "u").2).last_page = some 2 :=
  ⟨(last_page_no_pagination_amended emptyListingWorld page2state "u"
      { articles := [], pagination := none } rfl rfl).1 rfl,
   (last_page_no_pagination_amended raquoPagWorld page2state "u"
      { articles := [], pagination := some { anchors := [anch "»"] } } rfl rfl).2
      { anchors := [anch "»"] } rfl (by decide)⟩

/-- C3: a scraper constructed with enabled = false is disabled at once
and no `run()` call ever initializes a browser session for it.  The
initialization attempt itself creates nothing: on a disabled scraper
`init_driver` is the identity, so `get_links` reaches its no-driver
check with the handle still absent and bails out with the empty list,
returning a state whose driver field is unchanged (absent); and since
the disabled state and the absent driver are invariant across every
sequence of `run()` calls, this holds at every call of every trace. -/
theorem disabled_never_creates_driver :
    (∀ (w : World) (s : ScraperState),
      s.state = ScraperPhase.disabled → init_driver w s = s) ∧
    (∀ (w : World) (s : ScraperState),
      s.state = ScraperPhase.disabled → s.driver = none →
      get_links w s = ([], { s with current_page := s.current_page + 1 })) ∧
    (∀ mp : Option Nat,
      (couponscorpion_init false mp).state = ScraperPhase.disabled ∧
      (couponscorpion_init false mp).driver = none ∧
      ∀ ws : List World,
        (run_trace ws (couponscorpion_init false mp)).state = ScraperPhase.disabled ∧
        (run_trace ws (couponscorpion_init false mp)).driver = none) := by
  have hinit : ∀ (w : World) (s : ScraperState),
      s.state = ScraperPhase.disabled → init_driver w s = s := by
    intro w s h
    unfold init_driver is_disabled
    simp [h]
  refine ⟨hinit, fun w s hst hdr => ?_, fun mp => ?_⟩
  · have h1 : init_driver w { s with current_page := s.current_page + 1 } =
        { s with current_page := s.current_page + 1 } :=
      hinit w { s with current_page := s.current_page + 1 } hst
    simp only [get_links, h1]
    rw [if_pos]
    simp [hdr]
  · have hst : (couponscorpion_init false mp).state = ScraperPhase.disabled := rfl
    refine ⟨hst, rfl, fun ws => ?_⟩
    have h := run_trace_disabled ws (couponscorpion_init false mp) hst
    exact ⟨h.1, h.2 rfl⟩

/-- Witness for C3: on a freshly disabled scraper, the initialization
attempt of the all-failing world leaves the state untouched, `get_links`
returns the empty list with the driver still absent, and a trace of one
`run()` call ends with no driver. -/
theorem disabled_never_creates_driver_witness :
    init_driver errWorld (couponscorpion_init false none) =
      couponscorpion_init false none ∧
    get_links errWorld (couponscorpion_init false none) =
      ([], { couponscorpion_init false none with
              current_page := (couponscorpion_init false none).current_page + 1 }) ∧
    (run_trace [errWorld] (couponscorpion_init false none)).driver = none :=
  ⟨disabled_never_creates_driver.1 errWorld (couponscorpion_init false none) rfl,
   disabled_never_creates_driver.2.1 errWorld (couponscorpion_init false none) rfl rfl,
   ((disabled_never_creates_driver.2.2 none).2.2 [errWorld]).2⟩

/-- Fusing a boolean filter into the following filterMap. -/
theorem filterMap_filter_fuse {α β : Type} (p : α → Bool) (f : α → Option β) :
    ∀ l : List α, (l.filter p).filterMap f =
      l.filterMap fun a => if p a then f a else none := by
  intro l
  induction l with
  | nil => rfl
  | cons a l ih =>
    by_cases h : p a <;>
      simp [List.filter_cons, h, List.filterMap_cons, ih]

/-- A filterMap whose function succeeds on every element keeps the length. -/
theorem length_filterMap_of_isSome {α β : Type} (f : α → Option β) :
    ∀ l : List α, (∀ a ∈ l, (f a).isSome = true) →
      (l.filterMap f).length = l.length := by
  intro l
  induction l with
  | nil => intro; rfl
  | cons a l ih =>
    intro h
    obtain ⟨b, hb⟩ := Option.isSome_iff_exists.mp (h a (List.mem_cons_self a l))
    simp [List.filterMap_cons, hb,
      ih fun x hx => h x (List.mem_cons_of_mem a hx)]

/-- C4 counterexample: a single button-wrapper span containing two
href-bearing anchors contributes only the first href; the second one
never appears in the result, refuting "all k hrefs appear". -/
theorem coupon_links_first_anchor_only_cex :
    span_qualifies twoAnchorSpan = true ∧
    extract_redirect_links [twoAnchorSpan] = ["u1"] ∧
    "u2" ∉ extract_redirect_links [twoAnchorSpan] := by
  decide

/-- C4 amended: the post parser returns, for each button-wrapper span
that contains at least one href-bearing anchor, exactly the href of the
first such anchor, in document order; further anchors of the same span
are ignored. -/
theorem coupon_links_one_per_wrapper (pre post : List Span) (sp : Span) (u : String)
    (hq : span_qualifies sp = true) (hfirst : find_first_href sp.anchors = some u) :
    extract_redirect_links (pre ++ sp :: post) =
      extract_redirect_links pre ++ u :: extract_redirect_links post := by
  unfold extract_redirect_links
  rw [List.filter_append, List.filter_cons]
  simp [hq, List.filterMap_append, List.filterMap_cons, hfirst]

/-- Witness for C4 amended: a two-anchor wrapper span after a
non-wrapper span contributes exactly its first href. -/
theorem coupon_links_one_per_wrapper_witness :
    extract_redirect_links [otherSpan, twoAnchorSpan] =
      extract_redirect_links [otherSpan] ++ "u1" :: extract_redirect_links [] :=
  coupon_links_one_per_wrapper [otherSpan] [] twoAnchorSpan "u1" (by decide) (by decide)

/-- C5 counterexample: a listing page with exactly two qualifying
articles, one of which contains no anchor, yields one href, not two. -/
theorem post_links_skip_anchorless_cex :
    (List.filter article_qualifies [artNoAnchor, artWithAnchor]).length = 2 ∧
    extract_post_links [artNoAnchor, artWithAnchor] = ["p1"] ∧
    (extract_post_links [artNoAnchor, artWithAnchor]).length ≠ 2 := by
  decide

/-- C5 amended: post-link extraction returns, in document order, the
first href of each qualifying article that contains an href-bearing
anchor, skipping qualifying articles without one; when every qualifying
article contains such an anchor the result has exactly one href per
qualifying article. -/
theorem post_links_one_per_anchored_article (articles : List Article) :
    (extract_post_links articles =
      articles.filterMap fun a =>
        if article_qualifies a then find_first_href a.anchors else none) ∧
    ((∀ a ∈ articles, article_qualifies a = true →
        (find_first_href a.anchors).isSome = true) →
      (extract_post_links articles).length =
        (articles.filter article_qualifies).length) := by
  constructor
  · exact filterMap_filter_fuse article_qualifies _ articles
  · intro h
    unfold extract_post_links
    exact length_filterMap_of_isSome _ _
      fun a ha => h a (List.mem_filter.mp ha).1 (List.mem_filter.mp ha).2

/-- Witness for C5 amended at a one-article listing. -/
theorem post_links_one_per_anchored_article_witness :
    extract_post_links [artWithAnchor] =
      List.filterMap
        (fun a => if article_qualifies a then find_first_href a.anchors else none)
        [artWithAnchor] ∧
    (extract_post_links [artWithAnchor]).length =
      (List.filter article_qualifies [artWithAnchor]).length :=
  ⟨(post_links_one_per_anchored_article [artWithAnchor]).1,
   (post_links_one_per_anchored_article [artWithAnchor]).2 (by decide)⟩

/-- C6: `last_page` is memoized exactly once: it is `None` at
construction, the first successful listing-page parse stores the computed
bound, and once it holds a value no later `run()` call changes it. -/
theorem last_page_memoized_once :
    (∀ enabled mp, (couponscorpion_init enabled mp).last_page = none) ∧
    (∀ w s url soup, s.last_page = none → w.listing url = Except.ok soup →
      ((get_post_links w s url).2).last_page =
        some (compute_last_page s.current_page soup.pagination)) ∧
    (∀ w s url e, w.listing url = Except.error e →
      ((get_post_links w s url).2).last_page = s.last_page) ∧
    (∀ w s v, s.last_page = some v → (run_state w s).last_page = some v) := by
  refine ⟨fun enabled mp => ?_,
    fun w s url soup h1 h2 => get_post_links_sets_last_page w s url soup h1 h2,
    fun w s url e h => by rw [get_post_links_error w s url e h],
    fun w s v h => ?_⟩
  · cases enabled <;> rfl
  · rw [run_state_eq, (run_cleanup_fields _).2.1, (max_pages_reached_fields _).2.1]
    exact get_links_last_page_some w s v h

/-- Witness for C6: a fresh scraper has no last page, the first
successful parse of an empty page stores one, and a memoized value 5
survives a full `run()` call. -/
theorem last_page_memoized_once_witness :
    (couponscorpion_init true none).last_page = none ∧
    ((get_post_links emptyListingWorld page2state "u").2).last_page =
      some (compute_last_page page2state.current_page
        (ListingHtml.pagination { articles := [], pagination := none })) ∧
    ((get_post_links errWorld page2state "u").2).last_page = page2state.last_page ∧
    (run_state errWorld lastPage5State).last_page = some 5 :=
  ⟨last_page_memoized_once.1 true none,
   last_page_memoized_once.2.1 emptyListingWorld page2state "u"
     { articles := [], pagination := none } rfl rfl,
   last_page_memoized_once.2.2.1 errWorld page2state "u" "boom" rfl,
   last_page_memoized_once.2.2.2 errWorld lastPage5State 5 rfl⟩

/-- C7: every `run()` call increments the page counter by exactly one,
whatever the world does (fetch failures, navigation failures, failed or
impossible driver initialization included); over a sequence of calls the
counter grows by the number of calls and in particular never decreases. -/
theorem run_increments_page_exactly_once :
    (∀ w s, (run_state w s).current_page = s.current_page + 1) ∧
    (∀ ws s, (run_trace ws s).current_page = s.current_page + ws.length) ∧
    (∀ ws s, s.current_page ≤ (run_trace ws s).current_page) := by
  have h1 : ∀ w s, (run_state w s).current_page = s.current_page + 1 := by
    intro w s
    rw [run_state_eq, (run_cleanup_fields _).1, (max_pages_reached_fields _).1]
    exact get_links_current_page w s
  have h2 : ∀ ws s, (run_trace ws s).current_page = s.current_page + ws.length := by
    intro ws
    induction ws with
    | nil => intro s; rfl
    | cons w ws ih =>
      intro s
      simp only [run_trace, ih (run_state w s), h1 w s, List.length_cons]
      omega
  exact ⟨h1, h2, fun ws s => by rw [h2 ws s]; omega⟩

/-- C8: with an active driver, redirect resolution returns exactly the
normalized URL of the validator when navigation succeeds and the
validator accepts, and `None` when navigation raises or the validator
rejects; every link gathered by `gather_udemy_course_links` is the
`some`-result of a resolution, so `None` results contribute nothing. -/
theorem resolve_redirect_validator (w : World) (s : ScraperState)
    (hd : s.driver = some ()) :
    (∀ u f v, w.navigate u = Except.ok f → w.validate f = some v →
      v.isEmpty = false → resolve_redirect w s u = some v) ∧
    (∀ u e, w.navigate u = Except.error e → resolve_redirect w s u = none) ∧
    (∀ u f, w.navigate u = Except.ok f → w.validate f = none →
      resolve_redirect w s u = none) ∧
    (∀ post_links x, x ∈ gather_udemy_course_links w s post_links →
      ∃ u, resolve_redirect w s u = some x) := by
  have hnn : s.driver.isNone = false := by rw [hd]; rfl
  refine ⟨?_, ?_, ?_, ?_⟩
  · intro u f v hnav hval hne
    simp [resolve_redirect, hnn, hnav, hval, hne]
  · intro u e hnav
    simp [resolve_redirect, hnn, hnav]
  · intro u f hnav hval
    simp [resolve_redirect, hnn, hnav, hval]
  · intro post_links x hx
    simp only [gather_udemy_course_links, List.mem_flatMap, List.mem_filterMap] at hx
    obtain ⟨p, hp, r, hr, heq⟩ := hx
    refine ⟨r, ?_⟩
    cases hres : resolve_redirect w s r with
    | none => rw [hres] at heq; simp at heq
    | some f =>
      rw [hres] at heq
      by_cases hemp : f.isEmpty
      · simp [hemp] at heq
      · simp [hemp] at heq
        rw [heq]

/-- Witness for C8: navigating a reaches fa, validated to va; navigating
b raises; navigating c reaches fc, which the validator rejects; and the
gathered list for the post page p is built only from `some` results. -/
theorem resolve_redirect_validator_witness :
    resolve_redirect resolveWorld driverState "a" = some "va" ∧
    resolve_redirect resolveWorld driverState "b" = none ∧
    resolve_redirect resolveWorld driverState "c" = none ∧
    (∃ u, resolve_redirect resolveWorld driverState u = some "va") :=
  ⟨(resolve_redirect_validator resolveWorld driverState rfl).1 "a" "fa" "va"
      rfl (by decide) (by decide),
   (resolve_redirect_validator resolveWorld driverState rfl).2.1 "b" "nav" rfl,
   (resolve_redirect_validator resolveWorld driverState rfl).2.2.1 "c" "fc"
      rfl (by decide),
   (resolve_redirect_validator resolveWorld driverState rfl).2.2.2 ["p"] "va"
      (by decide)⟩

/-- C9: with pagination anchor texts 1, 2, 3 and a right-guillemet, the
computed last page is 3, whatever the current page: the non-numeric
anchor is ignored and the numeric texts kept are exactly 1, 2, 3, whose
maximum is taken. -/
theorem pagination_numeric_max :
    (∀ cp, compute_last_page cp (some pag1239) = 3) ∧
    numeric_page_numbers pag1239.anchors = [1, 2, 3] :=
  ⟨fun _ => rfl, by decide⟩

/-- C10: without a browser session handle, redirect resolution returns
`None` immediately for every input URL; the result does not depend on
the world, so neither the navigation (with its settle sleep) nor the
validator is ever consulted. -/
theorem resolve_redirect_no_driver (w : World) (s : ScraperState) (url : String)
    (h : s.driver = none) : resolve_redirect w s url = none := by
  unfold resolve_redirect
  simp [h]

/-- Witness for C10 at a disabled scraper and the all-failing world. -/
theorem resolve_redirect_no_driver_witness :
    resolve_redirect errWorld (couponscorpion_init false none) "x" = none :=
  resolve_redirect_no_driver errWorld (couponscorpion_init false none) "x" rfl

end CouponScorpion
